import Mathlib

/-!
Shallow embedding of the MSAL device-code authentication engine of the
repository (apps/web/utils/outlook/msal-device-code.ts,
apps/web/utils/outlook/msal-cache-plugin.ts, and the poll / calendar-connect
API route handlers).  Times are Unix-epoch milliseconds as `Nat`; the
JavaScript `Map` objects are association lists with first-match lookup;
promises appear as their settled values (`Except`/`Option`), and the outcome
of racing a flow's completion promise against the 100 ms timer is an explicit
`RaceOutcome` input.
-/

/-- Association-list lookup with the first-match semantics of `Map.get`. -/
def lookupKey {α : Type} (k : String) : List (String × α) → Option α
  | [] => none
  | (k2, v) :: rest => if k2 = k then some v else lookupKey k rest

/-- Association-list removal of every binding of `k`, the effect of
`Map.delete` on a map whose keys are unique. -/
def eraseKey {α : Type} (k : String) : List (String × α) → List (String × α)
  | [] => []
  | (k2, v) :: rest =>
    if k2 = k then eraseKey k rest else (k2, v) :: eraseKey k rest

/-- Association-list update, the effect of `Map.set`. -/
def setKey {α : Type} (k : String) (v : α) (l : List (String × α)) :
    List (String × α) :=
  (k, v) :: eraseKey k l

/-- Boolean substring containment, the embedding of JavaScript
`hay.includes(needle)`: `headMatch n h` checks that `n` is a prefix of `h`. -/
def headMatch : List Char → List Char → Bool
  | [], _ => true
  | _ :: _, [] => false
  | a :: as, b :: bs => a == b && headMatch as bs

/-- Search for `needle` at every suffix of the haystack. -/
def subSearch (needle : List Char) : List Char → Bool
  | [] => headMatch needle []
  | b :: bs => headMatch needle (b :: bs) || subSearch needle bs

/-- The embedding of `hay.includes(needle)` on strings. -/
def containsSubstr (hay needle : String) : Bool :=
  subSearch needle.toList hay.toList

/-- JavaScript truthiness of an optional string: `undefined` and `""` are
falsy (`tokenEntry?.secret` in the source). -/
def strTruthy : Option String → Bool
  | none => false
  | some s => !(s == "")

/-- The embedding of JavaScript `s.toLowerCase()`, character by
character. -/
def strToLower (s : String) : String := ⟨s.data.map Char.toLower⟩

/-- The account slice of an MSAL `AccountInfo` used by this code
(`localAccountId` is what the repository stores as `providerAccountId`). -/
structure AccountInfo where
  localAccountId : String
deriving DecidableEq, Repr

/-- An MSAL `AuthenticationResult` as consumed by `pollDeviceCodeFlow` and
`acquireMSALTokenSilent`: `expiresOn` is nullable in the MSAL type. -/
structure AuthResult where
  accessToken : String
  expiresOn : Option Nat
  scopes : List String
  account : Option AccountInfo
deriving DecidableEq, Repr

/-- The `ActiveFlow` record stored in the `activeFlows` map
(msal-device-code.ts); the promise itself is not part of the stored data in
this embedding — its settled state is the `RaceOutcome` input of a poll. -/
structure ActiveFlow where
  deviceCode : String
  userCode : String
  verificationUri : String
  expiresAt : Nat
  message : String
deriving DecidableEq, Repr

/-- The `activeFlows : Map<string, ActiveFlow>` registry. -/
abbrev FlowMap : Type := List (String × ActiveFlow)

/-- Outcome of `Promise.race([flow.promise.then(...).catch(...), timer])` in
`pollDeviceCodeFlow`: the timer wins (`done: false`), the promise rejected
(`catch` branch, carrying the error message that
`error instanceof Error ? error.message : String(error)` computes), or the
promise resolved with a nullable `AuthenticationResult`. -/
inductive RaceOutcome
  | notDone
  | errored (msg : String)
  | resolved (r : Option AuthResult)
deriving DecidableEq, Repr

/-- Poll status strings of `PollResult.status`. -/
inductive PollStatus
  | pending
  | complete
  | expired
  | error
deriving DecidableEq, Repr

/-- The `result` payload of a completed `PollResult`. -/
structure PollPayload where
  accessToken : String
  expiresAt : Nat
  scopes : List String
  account : Option AccountInfo
deriving DecidableEq, Repr

/-- The `PollResult` returned by `pollDeviceCodeFlow`. -/
structure PollResult where
  status : PollStatus
  error : Option String := none
  result : Option PollPayload := none
deriving DecidableEq, Repr

/-- Embedding of `cleanupExpiredFlows` (msal-device-code.ts): delete every
flow with `now > flow.expiresAt`. -/
def cleanupExpiredFlows (now : Nat) : FlowMap → FlowMap
  | [] => []
  | (k, f) :: rest =>
    if f.expiresAt < now then cleanupExpiredFlows now rest
    else (k, f) :: cleanupExpiredFlows now rest

/-- Embedding of `pollDeviceCodeFlow` (msal-device-code.ts).  Returns the
`PollResult` and the updated `activeFlows` registry.  Steps, in source
order: missing flow ⇒ `expired`; `new Date() > flow.expiresAt` ⇒ delete and
`expired`; timer wins the race ⇒ `pending`; otherwise the flow is deleted
and the settled promise is classified — an error whose message contains
`"authorization_pending"` ⇒ `pending`, any other error ⇒ `error` with the
message, a null result ⇒ `error "No authentication result"`, and a result
⇒ `complete` with payload (`expiresOn` defaulting to now + 3 600 000 ms). -/
def pollDeviceCodeFlow (sessionId : String) (now : Nat) (flows : FlowMap)
    (race : RaceOutcome) : PollResult × FlowMap :=
  match lookupKey sessionId flows with
  | none => ({ status := .expired }, flows)
  | some flow =>
    if flow.expiresAt < now then
      ({ status := .expired }, eraseKey sessionId flows)
    else
      match race with
      | .notDone => ({ status := .pending }, flows)
      | .errored msg =>
        let flows1 := eraseKey sessionId flows
        if containsSubstr msg "authorization_pending" then
          ({ status := .pending }, flows1)
        else
          ({ status := .error, error := some msg }, flows1)
      | .resolved none =>
        ({ status := .error, error := some "No authentication result" },
          eraseKey sessionId flows)
      | .resolved (some r) =>
        ({ status := .complete,
           result := some { accessToken := r.accessToken,
                            expiresAt := r.expiresOn.getD (now + 3600000),
                            scopes := r.scopes,
                            account := r.account } },
          eraseKey sessionId flows)

/-- The callback payload MSAL hands to `deviceCodeCallback`
(`DeviceCodeResponse` in msal-device-code.ts). -/
structure DeviceCodeResponse where
  deviceCode : String
  userCode : String
  verificationUri : String
  expiresIn : Nat
  interval : Nat
  message : String
deriving DecidableEq, Repr

/-- The `DeviceCodeInitResponse` returned by `initiateDeviceCodeFlow`. -/
structure DeviceCodeInitResponse where
  sessionId : String
  userCode : String
  verificationUri : String
  expiresAt : Nat
  message : String
deriving DecidableEq, Repr

/-- Embedding of `initiateDeviceCodeFlow` (msal-device-code.ts).  The
provider interaction is represented by `cb`: `some resp` when the
`deviceCodeCallback` fires with `resp` within the 10-second wait, `none`
when it never fires (the "Device code callback timeout" path).  Steps, in
source order: feature flag check, `cleanupExpiredFlows()`, the
"Session already exists" conflict check, then the callback stores the flow
(with `expiresAt = now + expiresIn * 1000`) and the init response is
returned. -/
def initiateDeviceCodeFlow (enabled : Bool) (sessionId : String) (now : Nat)
    (flows : FlowMap) (cb : Option DeviceCodeResponse) :
    Except String (DeviceCodeInitResponse × FlowMap) :=
  if !enabled then .error "MSAL device code flow is not enabled"
  else
    let flows1 := cleanupExpiredFlows now flows
    if (lookupKey sessionId flows1).isSome then .error "Session already exists"
    else
      match cb with
      | none => .error "Device code callback timeout"
      | some resp =>
        let expiresAt := now + resp.expiresIn * 1000
        let flow : ActiveFlow :=
          { deviceCode := resp.deviceCode
            userCode := resp.userCode
            verificationUri := resp.verificationUri
            expiresAt := expiresAt
            message := resp.message }
        .ok ({ sessionId := sessionId
               userCode := resp.userCode
               verificationUri := resp.verificationUri
               expiresAt := expiresAt
               message := resp.message },
             setKey sessionId flow flows1)

/-- The token object returned by `acquireMSALTokenSilent`. -/
structure SilentTokenResult where
  accessToken : String
  expiresAt : Nat
  account : AccountInfo
deriving DecidableEq, Repr

/-- Embedding of `acquireMSALTokenSilent` (msal-device-code.ts).  The MSAL
cache's account list is the input `accounts`; the provider call
`app.acquireTokenSilent` is the input `silent` — `.error` when it throws
(caught by the `try` block and turned into `null`), `.ok none` when it
returns null, `.ok (some r)` on success.  Every branch of the source either
returns a token object or `null`; nothing escapes the `try`. -/
def acquireMSALTokenSilent (enabled : Bool) (providerAccountId : String)
    (accounts : List AccountInfo) (silent : Except String (Option AuthResult))
    (now : Nat) : Option SilentTokenResult :=
  if !enabled then none
  else if accounts.isEmpty then none
  else
    match accounts.find? (fun a => a.localAccountId == providerAccountId) with
    | none => none
    | some account =>
      match silent with
      | .error _ => none
      | .ok none => none
      | .ok (some r) =>
        some { accessToken := r.accessToken
               expiresAt := r.expiresOn.getD (now + 3600000)
               account := account }

/-- The `CompletionResult` produced by `completeDeviceCodeAuthentication`
(poll route, src/unnamed/part_001). -/
structure CompletionResult where
  email : String
  redirectUrl : String
  message : String
  signedSessionToken : String
  sessionExpires : Nat
deriving DecidableEq, Repr

/-- A `CompletionEntry` of the poll route's `completionCache`; the shared
completion promise appears as its settled value (`.ok` when
`completeDeviceCodeAuthentication` fulfilled, `.error msg` when it
rejected). -/
structure CompletionEntry where
  outcome : Except String CompletionResult
  expiresAt : Nat
deriving Repr

/-- The `completionCache : Map<string, CompletionEntry>`. -/
abbrev CompletionCache : Type := List (String × CompletionEntry)

/-- Embedding of `cleanupCompletionCache` (poll route): delete every entry
with `entry.expiresAt.getTime() <= now`. -/
def cleanupCompletionCache (now : Nat) : CompletionCache → CompletionCache
  | [] => []
  | (k, e) :: rest =>
    if e.expiresAt ≤ now then cleanupCompletionCache now rest
    else (k, e) :: cleanupCompletionCache now rest

/-- Responses of the poll route's `POST` handler.  `complete` carries the
whole `CompletionResult`: the JSON body holds its email, redirectUrl and
message, and the session cookie holds its signedSessionToken with expiry
sessionExpires.  `bareStatus` is the fall-through
`NextResponse.json({ status: pollResult.status })`. -/
inductive PollApiResponse
  | disabled
  | pending
  | expired
  | errorResp (msg : Option String)
  | complete (c : CompletionResult)
  | bareStatus (s : PollStatus)
deriving DecidableEq, Repr

/-- Embedding of `respondWithCompletionPromise` (poll route): await the
entry's shared promise; fulfilment becomes the `complete` response built by
`buildCompletionResponse`, rejection becomes
`{ status: "error", error: message }`. -/
def respondWithCompletionPromise (entry : CompletionEntry) : PollApiResponse :=
  match entry.outcome with
  | .ok c => .complete c
  | .error m => .errorResp (some m)

/-- Mutable state touched by the poll route: the completion cache and the
flow registry. -/
structure PollServerState where
  cache : CompletionCache
  flows : FlowMap
deriving Repr

/-- Embedding of the poll route's `POST` handler (src/unnamed/part_001).
Inputs beyond the request: `race` is the settled state of the flow's
completion promise, and `effect` is the outcome that one execution of
`completeDeviceCodeAuthentication` would produce.  The returned `Nat`
counts how many times that side effect was started by this call.  Steps, in
source order: feature gate; `cleanupCompletionCache()`; cached-completion
fast path; `pollDeviceCodeFlow`; the `pending` / `expired` (with a second
cache check) / `error` branches; and on `complete && result` the effect is
started, memoised in the cache with a 5-minute TTL, and awaited. -/
def pollRoutePOST (enabled : Bool) (sessionId : String) (now : Nat)
    (st : PollServerState) (race : RaceOutcome)
    (effect : Except String CompletionResult) :
    PollApiResponse × PollServerState × Nat :=
  if !enabled then (.disabled, st, 0)
  else
    let cache1 := cleanupCompletionCache now st.cache
    match lookupKey sessionId cache1 with
    | some entry =>
      (respondWithCompletionPromise entry,
       { cache := cache1, flows := st.flows }, 0)
    | none =>
      let pr := pollDeviceCodeFlow sessionId now st.flows race
      let pollResult := pr.1
      let flows1 := pr.2
      match pollResult.status with
      | .pending => (.pending, { cache := cache1, flows := flows1 }, 0)
      | .expired =>
        match lookupKey sessionId cache1 with
        | some entry =>
          (respondWithCompletionPromise entry,
           { cache := cache1, flows := flows1 }, 0)
        | none => (.expired, { cache := cache1, flows := flows1 }, 0)
      | .error =>
        (.errorResp pollResult.error, { cache := cache1, flows := flows1 }, 0)
      | .complete =>
        match pollResult.result with
        | some _ =>
          let entry : CompletionEntry :=
            { outcome := effect, expiresAt := now + 5 * 60 * 1000 }
          (respondWithCompletionPromise entry,
           { cache := setKey sessionId entry cache1, flows := flows1 }, 1)
        | none =>
          (.bareStatus pollResult.status,
           { cache := cache1, flows := flows1 }, 0)

/-- Outcome of the token-acquisition step of the calendar connect route
(src/unnamed/part_000, step 4): the 500 "Token decryption failed" response,
the 401 "Authentication expired" response, or an access token with its
expiry. -/
inductive CalendarTokenOutcome
  | decryptionFailed
  | reauthRequired
  | token (accessToken : String) (expiresAt : Nat)
deriving DecidableEq, Repr

/-- The MSAL branch of step 4 of the calendar connect route. -/
def calendarMsalBranch (msalResult : Option SilentTokenResult) :
    CalendarTokenOutcome :=
  match msalResult with
  | none => .reauthRequired
  | some r => .token r.accessToken r.expiresAt

/-- Embedding of step 4 of the calendar connect route's `POST`
(src/unnamed/part_000, lines 90-140).  `tokenStillValid` is
`storedToken && storedExpiry && storedExpiry > now + 5 min`; on that path
the stored token is decrypted — a decryption failure returns the 500
response — otherwise `acquireMSALTokenSilent` is consulted (its would-be
result is the input `msalResult`).  The returned `Bool` records whether the
MSAL silent-acquisition strategy was invoked. -/
def calendarConnectGetToken (storedToken : Option String)
    (storedExpiry : Option Nat) (now : Nat)
    (decrypt : String → Option String)
    (msalResult : Option SilentTokenResult) : CalendarTokenOutcome × Bool :=
  match storedToken, storedExpiry with
  | some tok, some exp =>
    if now + 5 * 60 * 1000 < exp then
      (match decrypt tok with
       | none => .decryptionFailed
       | some d => .token d exp, false)
    else (calendarMsalBranch msalResult, true)
  | some _, none => (calendarMsalBranch msalResult, true)
  | none, _ => (calendarMsalBranch msalResult, true)

/-- Embedding of `beforeCacheAccess` of the Prisma cache plugin
(msal-cache-plugin.ts): `stored` is the account row's `msal_cache` column.
The result is what gets deserialised into MSAL's token cache — `none` means
the cache is left empty (cold start).  No branch throws: a missing row, a
missing blob, and a failed decryption all fall through. -/
def beforeCacheAccess (stored : Option String)
    (decrypt : String → Option String) : Option String :=
  match stored with
  | none => none
  | some v =>
    match decrypt v with
    | none => none
    | some d => some d

/-- One entry of the parsed cache blob's `RefreshToken` map
(msal-cache-plugin.ts). -/
structure RefreshTokenEntry where
  secret : Option String
  home_account_id : Option String
deriving DecidableEq, Repr

/-- The key/entry match test of the extraction loop:
`tokenEntry?.secret && (key.toLowerCase().includes(pid.toLowerCase()) ||
tokenEntry.home_account_id?.includes(pid))`. -/
def refreshTokenEntryMatches (pid key : String) (e : RefreshTokenEntry) :
    Bool :=
  strTruthy e.secret &&
    (containsSubstr (strToLower key) (strToLower pid) ||
      (match e.home_account_id with
       | some h => containsSubstr h pid
       | none => false))

/-- The `for (const key of Object.keys(refreshTokens))` loop of
`extractRefreshTokenFromCache`: return the first matching entry's secret. -/
def findMatchingSecret (pid : String) :
    List (String × RefreshTokenEntry) → Option String
  | [] => none
  | (key, e) :: rest =>
    if refreshTokenEntryMatches pid key e then e.secret
    else findMatchingSecret pid rest

/-- The pure core of `extractRefreshTokenFromCache` on the parsed
`RefreshToken` entries (in object-key order): the matching loop, then the
`tokenEntries.length === 1 && tokenEntries[0]?.secret` fallback, then
null. -/
def extractRefreshTokenCore (pid : String)
    (entries : List (String × RefreshTokenEntry)) : Option String :=
  match findMatchingSecret pid entries with
  | some s => some s
  | none =>
    match entries with
    | [(_, e)] => if strTruthy e.secret then e.secret else none
    | _ => none

/-- Embedding of `extractRefreshTokenFromCache` (msal-cache-plugin.ts).
`stored` is the `msal_cache` column; `parse` stands for
`JSON.parse` plus the `cache.RefreshToken || {}` projection, returning
`none` when parsing throws (caught and turned into null).  A missing blob,
a failed decryption and a parse failure all return `none`. -/
def extractRefreshTokenFromCache (pid : String) (stored : Option String)
    (decrypt : String → Option String)
    (parse : String → Option (List (String × RefreshTokenEntry))) :
    Option String :=
  match stored with
  | none => none
  | some v =>
    match decrypt v with
    | none => none
    | some d =>
      match parse d with
      | none => none
      | some entries => extractRefreshTokenCore pid entries

/-- Modelled from the spec: claim C8's description of the extraction
heuristic, stated with `List.find?` — "returns the secret of an entry whose
cache key or home_account_id matches the account's providerAccountId if one
exists; otherwise, if the blob contains exactly one refresh-token entry
with a secret, it returns that single entry's secret even without a key
match; otherwise it returns null". -/
def extractRefreshClaim (pid : String)
    (entries : List (String × RefreshTokenEntry)) : Option String :=
  match entries.find? (fun p => refreshTokenEntryMatches pid p.1 p.2) with
  | some p => p.2.secret
  | none =>
    match entries with
    | [p] => if strTruthy p.2.secret then p.2.secret else none
    | _ => none

/-- Execution phase of one in-flight poll request in the event-loop model of
the poll route.  `start` is the segment that runs the completion-cache check
and enters `pollDeviceCodeFlow` up to its `await Promise.race` (the flow,
already read from `activeFlows`, is carried into the suspension); `atRace`
resumes after the race and runs to the end of the handler; `finished` holds
the response.  A handler that returns before reaching the race (cache hit,
missing flow, expired flow) finishes in its `start` segment; collapsing the
microtask boundaries inside one handler only removes interleavings, never
adds any. -/
inductive HandlerPhase
  | start
  | atRace (flow : ActiveFlow)
  | finished (resp : PollApiResponse)
deriving Repr

/-- One scheduler step of a poll-route handler: the segments of
`pollRoutePOST` between `await` suspension points, acting on the shared
`PollServerState`.  Returns the next phase, the new shared state, and how
many executions of `completeDeviceCodeAuthentication` the segment started. -/
def stepHandler (sessionId : String) (now : Nat) (race : RaceOutcome)
    (effect : Except String CompletionResult) (ph : HandlerPhase)
    (st : PollServerState) : HandlerPhase × PollServerState × Nat :=
  match ph with
  | .start =>
    let cache1 := cleanupCompletionCache now st.cache
    match lookupKey sessionId cache1 with
    | some entry =>
      (.finished (respondWithCompletionPromise entry),
       { cache := cache1, flows := st.flows }, 0)
    | none =>
      match lookupKey sessionId st.flows with
      | none => (.finished .expired, { cache := cache1, flows := st.flows }, 0)
      | some flow =>
        if flow.expiresAt < now then
          (.finished .expired,
           { cache := cache1, flows := eraseKey sessionId st.flows }, 0)
        else
          (.atRace flow, { cache := cache1, flows := st.flows }, 0)
  | .atRace _ =>
    match race with
    | .notDone => (.finished .pending, st, 0)
    | .errored msg =>
      let flows1 := eraseKey sessionId st.flows
      if containsSubstr msg "authorization_pending" then
        (.finished .pending, { cache := st.cache, flows := flows1 }, 0)
      else
        (.finished (.errorResp (some msg)),
         { cache := st.cache, flows := flows1 }, 0)
    | .resolved none =>
      (.finished (.errorResp (some "No authentication result")),
       { cache := st.cache, flows := eraseKey sessionId st.flows }, 0)
    | .resolved (some _) =>
      let flows1 := eraseKey sessionId st.flows
      let entry : CompletionEntry :=
        { outcome := effect, expiresAt := now + 5 * 60 * 1000 }
      (.finished (respondWithCompletionPromise entry),
       { cache := setKey sessionId entry st.cache, flows := flows1 }, 1)
  | .finished resp => (.finished resp, st, 0)

/-- Shared state of two concurrent poll-route handlers for the same
session, plus the running count of completion-side-effect executions. -/
structure TwoPollState where
  h1 : HandlerPhase
  h2 : HandlerPhase
  st : PollServerState
  effects : Nat
deriving Repr

/-- Run one scheduler decision: `true` steps handler 1, `false` steps
handler 2. -/
def stepTwoPolls (sessionId : String) (now : Nat) (race : RaceOutcome)
    (effect : Except String CompletionResult) (s : TwoPollState)
    (choice : Bool) : TwoPollState :=
  if choice then
    let r := stepHandler sessionId now race effect s.h1 s.st
    { h1 := r.1, h2 := s.h2, st := r.2.1, effects := s.effects + r.2.2 }
  else
    let r := stepHandler sessionId now race effect s.h2 s.st
    { h1 := s.h1, h2 := r.1, st := r.2.1, effects := s.effects + r.2.2 }

/-- Run a whole schedule of decisions over two concurrent poll handlers. -/
def runTwoPolls (sessionId : String) (now : Nat) (race : RaceOutcome)
    (effect : Except String CompletionResult) (s : TwoPollState) :
    List Bool → TwoPollState
  | [] => s
  | c :: cs =>
    runTwoPolls sessionId now race effect
      (stepTwoPolls sessionId now race effect s c) cs

/-- Serialized repetition of the poll route: run `pollRoutePOST` once per
listed poll time, each request completing before the next begins,
threading the server state and summing the side-effect executions. -/
def runPollsSerial (enabled : Bool) (sessionId : String)
    (race : RaceOutcome) (effect : Except String CompletionResult)
    (st : PollServerState) :
    List Nat → List PollApiResponse × PollServerState × Nat
  | [] => ([], st, 0)
  | t :: ts =>
    let r := pollRoutePOST enabled sessionId t st race effect
    let rest := runPollsSerial enabled sessionId race effect r.2.1 ts
    (r.1 :: rest.1, rest.2.1, r.2.2 + rest.2.2)

/-- Sample flow used by concrete witnesses (15-minute expiry at epoch 0). -/
def flow0 : ActiveFlow :=
  { deviceCode := "dev-code"
    userCode := "ABC-123"
    verificationUri := "https://microsoft.com/devicelogin"
    expiresAt := 900000
    message := "enter the code" }

/-- Sample successful MSAL authentication result. -/
def authRes0 : AuthResult :=
  { accessToken := "tok"
    expiresOn := some 3600000
    scopes := ["mail"]
    account := some { localAccountId := "acct-1" } }

/-- Sample completion payload of `completeDeviceCodeAuthentication`. -/
def completion0 : CompletionResult :=
  { email := "user@example.com"
    redirectUrl := "/welcome"
    message := "Authentication successful! Redirecting..."
    signedSessionToken := "signed-token"
    sessionExpires := 2592000000 }

/-- Sample silent-acquisition token result. -/
def silentTok0 : SilentTokenResult :=
  { accessToken := "stok"
    expiresAt := 3600000
    account := { localAccountId := "acct-1" } }

/-- Sample device-code callback payload. -/
def deviceResp0 : DeviceCodeResponse :=
  { deviceCode := "dev-code"
    userCode := "ABC-123"
    verificationUri := "https://microsoft.com/devicelogin"
    expiresIn := 900
    interval := 5
    message := "enter the code" }

/-- Sample refresh-token cache entry. -/
def rtEntry0 : RefreshTokenEntry :=
  { secret := some "refresh-1", home_account_id := some "acct-1.tenant" }

theorem lookupKey_eraseKey {α : Type} (k : String) (l : List (String × α)) :
    lookupKey k (eraseKey k l) = none := by
  induction l with
  | nil => rfl
  | cons p rest ih =>
    obtain ⟨k2, v⟩ := p
    by_cases h : k2 = k
    · simp [eraseKey, h, ih]
    · simp [eraseKey, lookupKey, h, ih]

theorem lookupKey_cleanupExpiredFlows_live (now : Nat) (k : String)
    (f : ActiveFlow) (l : FlowMap) (h : lookupKey k l = some f)
    (hl : ¬ f.expiresAt < now) :
    lookupKey k (cleanupExpiredFlows now l) = some f := by
  induction l with
  | nil => simp [lookupKey] at h
  | cons p rest ih =>
    obtain ⟨k2, g⟩ := p
    by_cases hk : k2 = k
    · subst hk
      simp only [lookupKey, if_pos rfl] at h
      cases h
      simp [cleanupExpiredFlows, if_neg hl, lookupKey]
    · simp only [lookupKey, if_neg hk] at h
      by_cases hexp : g.expiresAt < now
      · simp [cleanupExpiredFlows, hexp, ih h]
      · simp [cleanupExpiredFlows, hexp, lookupKey, hk, ih h]

theorem lookupKey_cleanupExpiredFlows_allExpired (now : Nat) (k : String)
    (l : FlowMap) (h : ∀ p ∈ l, p.1 = k → p.2.expiresAt < now) :
    lookupKey k (cleanupExpiredFlows now l) = none := by
  induction l with
  | nil => rfl
  | cons p rest ih =>
    obtain ⟨k2, g⟩ := p
    have hrest : ∀ q ∈ rest, q.1 = k → q.2.expiresAt < now := by
      intro q hq hqk
      exact h q (List.mem_cons_of_mem _ hq) hqk
    by_cases hexp : g.expiresAt < now
    · simp [cleanupExpiredFlows, hexp, ih hrest]
    · have hk : ¬ k2 = k := by
        intro hkk
        exact hexp (h (k2, g) (List.mem_cons_self _ _) hkk)
      simp [cleanupExpiredFlows, hexp, lookupKey, hk, ih hrest]

theorem lookupKey_cleanupCompletionCache_live (now : Nat) (k : String)
    (e : CompletionEntry) (l : CompletionCache) (h : lookupKey k l = some e)
    (hl : ¬ e.expiresAt ≤ now) :
    lookupKey k (cleanupCompletionCache now l) = some e := by
  induction l with
  | nil => simp [lookupKey] at h
  | cons p rest ih =>
    obtain ⟨k2, g⟩ := p
    by_cases hk : k2 = k
    · subst hk
      simp only [lookupKey, if_pos rfl] at h
      cases h
      simp [cleanupCompletionCache, if_neg hl, lookupKey]
    · simp only [lookupKey, if_neg hk] at h
      by_cases hexp : g.expiresAt ≤ now
      · simp [cleanupCompletionCache, hexp, ih h]
      · simp [cleanupCompletionCache, hexp, lookupKey, hk, ih h]

theorem lookupKey_setKey {α : Type} (k : String) (v : α)
    (l : List (String × α)) : lookupKey k (setKey k v l) = some v := by
  simp [setKey, lookupKey]

/-- Claim C5: for every sessionId with no entry in the registry,
`pollDeviceCodeFlow` returns `{status: expired}` (registry untouched); and
for every registered flow whose `expiresAt` has passed, the poll returns
`{status: expired}` — whatever the race outcome, i.e. even if a previous
poll returned pending — and removes that flow from the registry. -/
theorem pollExpiredPaths (sessionId : String) (now : Nat) (flows : FlowMap)
    (race : RaceOutcome) :
    (lookupKey sessionId flows = none →
      pollDeviceCodeFlow sessionId now flows race =
        ({ status := .expired }, flows)) ∧
    (∀ flow, lookupKey sessionId flows = some flow → flow.expiresAt < now →
      pollDeviceCodeFlow sessionId now flows race =
        ({ status := .expired }, eraseKey sessionId flows)) := by
  constructor
  · intro h
    simp [pollDeviceCodeFlow, h]
  · intro flow h hexp
    simp [pollDeviceCodeFlow, h, hexp]

/-- Witness for C5: an unknown session polls as expired, and a session past
its expiry polls as expired and is removed. -/
theorem pollExpiredPaths_witness :
    pollDeviceCodeFlow "s1" 0 [] .notDone = ({ status := .expired }, []) ∧
    pollDeviceCodeFlow "s1" 900001 [("s1", flow0)] .notDone =
      ({ status := .expired }, []) := by
  refine ⟨(pollExpiredPaths "s1" 0 [] .notDone).1 rfl, ?_⟩
  have h := (pollExpiredPaths "s1" 900001 [("s1", flow0)] .notDone).2 flow0
    rfl (by decide)
  simpa [eraseKey] using h

/-- Claim C9: a flow whose completion promise resolves with a null
authentication result is surfaced as the terminal error
"No authentication result", and the flow is removed from the registry. -/
theorem pollNullResultError (sessionId : String) (now : Nat) (flows : FlowMap)
    (flow : ActiveFlow) (h : lookupKey sessionId flows = some flow)
    (hl : ¬ flow.expiresAt < now) :
    pollDeviceCodeFlow sessionId now flows (.resolved none) =
      ({ status := .error, error := some "No authentication result" },
        eraseKey sessionId flows) := by
  simp [pollDeviceCodeFlow, h, hl]

/-- Witness for C9 at a concrete live flow. -/
theorem pollNullResultError_witness :
    pollDeviceCodeFlow "s1" 0 [("s1", flow0)] (.resolved none) =
      ({ status := .error, error := some "No authentication result" }, []) := by
  have h := pollNullResultError "s1" 0 [("s1", flow0)] flow0 rfl (by decide)
  simpa [eraseKey] using h

/-- Counterexample for claim C1: after a poll that observes an
`authorization_pending` error, the flow has been deleted from the registry,
so the session is not pollable — the next poll returns `expired` even
though the race outcome supplied to it is the eventual successful
completion, contradicting "the session remains pollable so a later poll
can still observe the eventual complete/error outcome rather than
expired". -/
theorem pollAuthorizationPendingCex :
    (pollDeviceCodeFlow "s1" 0 [("s1", flow0)]
        (.errored "authorization_pending")).1 = { status := .pending } ∧
    (pollDeviceCodeFlow "s1" 0 [("s1", flow0)]
        (.errored "authorization_pending")).2 = [] ∧
    pollDeviceCodeFlow "s1" 1 [] (.resolved (some authRes0)) =
      ({ status := .expired }, []) := by
  refine ⟨?_, ?_, ?_⟩ <;> rfl

/-- Claim C1, amended: a poll that wins the race with an error whose
message contains "authorization_pending" returns `{status: pending}` and
never surfaces it as an error, but it removes the flow from the registry
first, so every later poll of that session returns `{status: expired}`
rather than the eventual complete/error outcome. -/
theorem pollAuthorizationPendingAmended (sessionId : String) (now : Nat)
    (flows : FlowMap) (flow : ActiveFlow) (msg : String)
    (h : lookupKey sessionId flows = some flow) (hl : ¬ flow.expiresAt < now)
    (hmsg : containsSubstr msg "authorization_pending" = true) :
    pollDeviceCodeFlow sessionId now flows (.errored msg) =
      ({ status := .pending }, eraseKey sessionId flows) ∧
    ∀ now2 race2,
      pollDeviceCodeFlow sessionId now2 (eraseKey sessionId flows) race2 =
        ({ status := .expired }, eraseKey sessionId flows) := by
  constructor
  · simp [pollDeviceCodeFlow, h, hl, hmsg]
  · intro now2 race2
    simp [pollDeviceCodeFlow, lookupKey_eraseKey]

/-- Witness for the amended C1 at a concrete live flow and error. -/
theorem pollAuthorizationPendingAmended_witness :
    pollDeviceCodeFlow "s1" 0 [("s1", flow0)]
        (.errored "server says authorization_pending please retry") =
      ({ status := .pending }, eraseKey "s1" [("s1", flow0)]) ∧
    ∀ now2 race2,
      pollDeviceCodeFlow "s1" now2 (eraseKey "s1" [("s1", flow0)]) race2 =
        ({ status := .expired }, eraseKey "s1" [("s1", flow0)]) :=
  pollAuthorizationPendingAmended "s1" 0 [("s1", flow0)] flow0
    "server says authorization_pending please retry" rfl (by decide) (by rfl)

/-- Claim C4: while a non-expired entry for `sessionId` is registered,
`initiateDeviceCodeFlow` fails with "Session already exists"; once every
entry for that id is gone or past its expiry (the cleanup criterion
`now > expiresAt`), a new initiate with the same id succeeds, registering a
fresh flow with expiry `now + expiresIn * 1000`. -/
theorem initiateSessionConflict (sessionId : String) (now : Nat)
    (flows : FlowMap) (cb : Option DeviceCodeResponse)
    (resp : DeviceCodeResponse) :
    (∀ flow, lookupKey sessionId flows = some flow → ¬ flow.expiresAt < now →
      initiateDeviceCodeFlow true sessionId now flows cb =
        .error "Session already exists") ∧
    ((∀ p ∈ flows, p.1 = sessionId → p.2.expiresAt < now) →
      initiateDeviceCodeFlow true sessionId now flows (some resp) =
        .ok ({ sessionId := sessionId
               userCode := resp.userCode
               verificationUri := resp.verificationUri
               expiresAt := now + resp.expiresIn * 1000
               message := resp.message },
             setKey sessionId
               { deviceCode := resp.deviceCode
                 userCode := resp.userCode
                 verificationUri := resp.verificationUri
                 expiresAt := now + resp.expiresIn * 1000
                 message := resp.message }
               (cleanupExpiredFlows now flows))) := by
  constructor
  · intro flow h hl
    have hlook := lookupKey_cleanupExpiredFlows_live now sessionId flow flows h hl
    simp [initiateDeviceCodeFlow, hlook]
  · intro hall
    have hlook := lookupKey_cleanupExpiredFlows_allExpired now sessionId flows hall
    simp [initiateDeviceCodeFlow, hlook]

/-- Witness for C4: a live duplicate is rejected; after its expiry passes,
the same sessionId initiates successfully. -/
theorem initiateSessionConflict_witness :
    initiateDeviceCodeFlow true "s1" 0 [("s1", flow0)] (some deviceResp0) =
      .error "Session already exists" ∧
    initiateDeviceCodeFlow true "s1" 900001 [("s1", flow0)] (some deviceResp0) =
      .ok ({ sessionId := "s1"
             userCode := "ABC-123"
             verificationUri := "https://microsoft.com/devicelogin"
             expiresAt := 900001 + 900 * 1000
             message := "enter the code" },
           [("s1",
             { deviceCode := "dev-code"
               userCode := "ABC-123"
               verificationUri := "https://microsoft.com/devicelogin"
               expiresAt := 900001 + 900 * 1000
               message := "enter the code" })]) := by
  constructor
  · exact (initiateSessionConflict "s1" 0 [("s1", flow0)] (some deviceResp0)
      deviceResp0).1 flow0 rfl (by decide)
  · have h := (initiateSessionConflict "s1" 900001 [("s1", flow0)]
      (some deviceResp0) deviceResp0).2 (by decide)
    simpa [deviceResp0, setKey, eraseKey, cleanupExpiredFlows] using h

/-- Claim C6: when a persisted access token exists, decrypts, and its
expiry is beyond the 5-minute safety buffer, the calendar-connect
token-acquisition step returns the decrypted stored token with its stored
expiry and does not invoke MSAL silent acquisition (the `false` flag). -/
theorem storedTokenFastPath (tok d : String) (exp now : Nat)
    (decrypt : String → Option String)
    (msalResult : Option SilentTokenResult)
    (hfresh : now + 5 * 60 * 1000 < exp) (hdec : decrypt tok = some d) :
    calendarConnectGetToken (some tok) (some exp) now decrypt msalResult =
      (.token d exp, false) := by
  simp [calendarConnectGetToken, hfresh, hdec]

/-- Witness for C6: a token expiring 10 minutes from now beats the
5-minute buffer and is returned decrypted without the MSAL strategy. -/
theorem storedTokenFastPath_witness :
    calendarConnectGetToken (some "ciphertext") (some 600000) 0
        (fun s => some (String.append "plain:" s)) (some silentTok0) =
      (.token "plain:ciphertext" 600000, false) :=
  storedTokenFastPath "ciphertext" "plain:ciphertext" 600000 0
    (fun s => some (String.append "plain:" s)) (some silentTok0)
    (by decide) rfl

/-- Claim C10: `acquireMSALTokenSilent` is total — it returns a token
object or null for every input, and it returns null exactly when the
feature flag is off, the MSAL cache holds no accounts, no cached account
matches the providerAccountId, silent acquisition returns null, or silent
acquisition raises an error (caught and mapped to null). -/
theorem acquireMSALTokenSilentTotal (enabled : Bool) (pid : String)
    (accounts : List AccountInfo)
    (silent : Except String (Option AuthResult)) (now : Nat) :
    acquireMSALTokenSilent enabled pid accounts silent now = none ↔
      (enabled = false ∨ accounts = [] ∨
        accounts.find? (fun a => a.localAccountId == pid) = none ∨
        silent = .ok none ∨ ∃ msg, silent = .error msg) := by
  cases enabled with
  | false => simp [acquireMSALTokenSilent]
  | true =>
    cases hfind : accounts.find? (fun a => a.localAccountId == pid) with
    | none =>
      cases accounts with
      | nil => simp [acquireMSALTokenSilent]
      | cons a rest => simp [acquireMSALTokenSilent, hfind]
    | some account =>
      have hne : accounts ≠ [] := by
        intro h
        subst h
        simp at hfind
      cases silent with
      | error msg =>
        simp [acquireMSALTokenSilent, hfind, hne, List.isEmpty_iff]
      | ok o =>
        cases o with
        | none => simp [acquireMSALTokenSilent, hfind, hne, List.isEmpty_iff]
        | some r =>
          simp [acquireMSALTokenSilent, hfind, hne, List.isEmpty_iff]

/-- Counterexample for claim C7: in the calendar-connect route, when the
stored access token is valid but fails to decrypt, the operation aborts
with the 500 "Token decryption failed" response and does not fall through
to silent acquisition, even though a silent-acquisition result was
available — contradicting "for every read where decrypt returns null, the
operation ... proceeds as if cold-starting ... rather than aborting the
caller with an error". -/
theorem decryptFailureAbortsCex :
    calendarConnectGetToken (some "ciphertext") (some 600000) 0
        (fun _ => none) (some silentTok0) = (.decryptionFailed, false) := rfl

/-- Claim C7, amended: a decryption failure is non-fatal in the MSAL cache
plugin (`beforeCacheAccess` leaves the cache empty, a cold start) and in
refresh-token extraction (`extractRefreshTokenFromCache` returns null,
treated as no cache); but in the calendar-connect route's stored-token
path a decryption failure aborts the request with the 500
"Token decryption failed" response instead of falling through to the MSAL
silent-acquisition strategy. -/
theorem decryptFailureNonFatalAmended (v pid : String)
    (decrypt : String → Option String)
    (parse : String → Option (List (String × RefreshTokenEntry)))
    (hdec : decrypt v = none) :
    beforeCacheAccess (some v) decrypt = none ∧
    extractRefreshTokenFromCache pid (some v) decrypt parse = none ∧
    ∀ exp now msal, now + 5 * 60 * 1000 < exp →
      calendarConnectGetToken (some v) (some exp) now decrypt msal =
        (.decryptionFailed, false) := by
  refine ⟨?_, ?_, ?_⟩
  · simp [beforeCacheAccess, hdec]
  · simp [extractRefreshTokenFromCache, hdec]
  · intro exp now msal hfresh
    simp [calendarConnectGetToken, hfresh, hdec]

/-- Witness for the amended C7 with a decrypt that always fails. -/
theorem decryptFailureNonFatalAmended_witness :
    beforeCacheAccess (some "blob") (fun _ => none) = none ∧
    extractRefreshTokenFromCache "acct-1" (some "blob") (fun _ => none)
        (fun _ => some [("key", rtEntry0)]) = none ∧
    ∀ exp now msal, now + 5 * 60 * 1000 < exp →
      calendarConnectGetToken (some "blob") (some exp) now (fun _ => none)
          msal = (.decryptionFailed, false) :=
  decryptFailureNonFatalAmended "blob" "acct-1" (fun _ => none)
    (fun _ => some [("key", rtEntry0)]) rfl

theorem findMatchingSecret_eq_find? (pid : String)
    (l : List (String × RefreshTokenEntry)) :
    findMatchingSecret pid l =
      match l.find? (fun p => refreshTokenEntryMatches pid p.1 p.2) with
      | some p => p.2.secret
      | none => none := by
  induction l with
  | nil => rfl
  | cons p rest ih =>
    obtain ⟨key, e⟩ := p
    by_cases h : refreshTokenEntryMatches pid key e
    · simp [findMatchingSecret, h, List.find?]
    · simp only [findMatchingSecret, if_neg h, ih]
      simp [List.find?, h]

theorem extractCore_eq_claim (pid : String)
    (entries : List (String × RefreshTokenEntry)) :
    extractRefreshTokenCore pid entries = extractRefreshClaim pid entries := by
  unfold extractRefreshTokenCore extractRefreshClaim
  rw [findMatchingSecret_eq_find?]
  cases hfind : entries.find? (fun p => refreshTokenEntryMatches pid p.1 p.2) with
  | none =>
    cases entries with
    | nil => rfl
    | cons a tl =>
      cases tl with
      | nil =>
        obtain ⟨k, e⟩ := a
        rfl
      | cons b tl2 => rfl
  | some p =>
    have hpred : refreshTokenEntryMatches pid p.1 p.2 = true := by
      have := List.find?_some hfind
      simpa using this
    have hsec : strTruthy p.2.secret = true := by
      unfold refreshTokenEntryMatches at hpred
      simp only [Bool.and_eq_true] at hpred
      exact hpred.1
    cases hs : p.2.secret with
    | none => rw [hs] at hsec; simp [strTruthy] at hsec
    | some s => simp [hs]

/-- Claim C8: for every stored, decryptable (and parseable) cache blob,
`extractRefreshTokenFromCache` implements the two-step heuristic the claim
describes: the secret of the first entry (with a secret) whose cache key or
home_account_id matches the providerAccountId if one exists; otherwise the
single entry's secret when the blob holds exactly one refresh-token entry
and it has a secret; otherwise null — stated as equality with
`extractRefreshClaim`, the claim's own description. -/
theorem extractRefreshTokenMatchesClaim (pid v pt : String)
    (decrypt : String → Option String)
    (parse : String → Option (List (String × RefreshTokenEntry)))
    (entries : List (String × RefreshTokenEntry))
    (hdec : decrypt v = some pt) (hparse : parse pt = some entries) :
    extractRefreshTokenFromCache pid (some v) decrypt parse =
      extractRefreshClaim pid entries := by
  simp [extractRefreshTokenFromCache, hdec, hparse, extractCore_eq_claim]

/-- Witness for C8 on a two-entry blob whose second entry matches by key:
both the code path and the claim's description yield that secret. -/
theorem extractRefreshTokenMatchesClaim_witness :
    extractRefreshTokenFromCache "acct-1" (some "blob") (fun s => some s)
        (fun _ => some
          [("other-key", { secret := some "refresh-0", home_account_id := some "zzz" }),
           ("acct-1-login.windows.net-refreshtoken", rtEntry0)]) =
      extractRefreshClaim "acct-1"
        [("other-key", { secret := some "refresh-0", home_account_id := some "zzz" }),
         ("acct-1-login.windows.net-refreshtoken", rtEntry0)] ∧
    extractRefreshClaim "acct-1"
        [("other-key", { secret := some "refresh-0", home_account_id := some "zzz" }),
         ("acct-1-login.windows.net-refreshtoken", rtEntry0)] =
      some "refresh-1" := by
  constructor
  · exact extractRefreshTokenMatchesClaim "acct-1" "blob" "blob" (fun s => some s)
      (fun _ => some
        [("other-key", { secret := some "refresh-0", home_account_id := some "zzz" }),
         ("acct-1-login.windows.net-refreshtoken", rtEntry0)])
      [("other-key", { secret := some "refresh-0", home_account_id := some "zzz" }),
       ("acct-1-login.windows.net-refreshtoken", rtEntry0)] rfl rfl
  · rfl

/-- Claim C2: once a poll completes a flow (installing the completion
entry), every subsequent poll before the entry's 5-minute TTL expires
returns the identical complete payload — same email, redirectUrl, message
and signed session token, all carried by the `CompletionResult` — with
zero further executions of the completion side effect, whatever race
outcome or would-be effect the later poll sees. -/
theorem pollIdempotentAfterCompletion (sessionId : String) (now now2 : Nat)
    (st : PollServerState) (r : AuthResult) (flow : ActiveFlow)
    (c : CompletionResult) (race2 : RaceOutcome)
    (effect2 : Except String CompletionResult)
    (hcache : lookupKey sessionId (cleanupCompletionCache now st.cache) = none)
    (hflow : lookupKey sessionId st.flows = some flow)
    (hlive : ¬ flow.expiresAt < now)
    (httl : now2 < now + 5 * 60 * 1000) :
    (pollRoutePOST true sessionId now st (.resolved (some r)) (.ok c)).1 =
      .complete c ∧
    (pollRoutePOST true sessionId now st (.resolved (some r)) (.ok c)).2.2 = 1 ∧
    (pollRoutePOST true sessionId now2
        (pollRoutePOST true sessionId now st (.resolved (some r)) (.ok c)).2.1
        race2 effect2).1 = .complete c ∧
    (pollRoutePOST true sessionId now2
        (pollRoutePOST true sessionId now st (.resolved (some r)) (.ok c)).2.1
        race2 effect2).2.2 = 0 := by
  have hpoll : pollDeviceCodeFlow sessionId now st.flows (.resolved (some r)) =
      ({ status := .complete,
         result := some { accessToken := r.accessToken,
                          expiresAt := r.expiresOn.getD (now + 3600000),
                          scopes := r.scopes,
                          account := r.account } },
        eraseKey sessionId st.flows) := by
    simp [pollDeviceCodeFlow, hflow, hlive]
  have hpost1 : pollRoutePOST true sessionId now st (.resolved (some r)) (.ok c) =
      (.complete c,
       { cache := setKey sessionId
           { outcome := .ok c, expiresAt := now + 5 * 60 * 1000 }
           (cleanupCompletionCache now st.cache),
         flows := eraseKey sessionId st.flows }, 1) := by
    simp [pollRoutePOST, hcache, hpoll, respondWithCompletionPromise]
  have hlook2 : lookupKey sessionId
      (cleanupCompletionCache now2
        (setKey sessionId
          { outcome := .ok c, expiresAt := now + 5 * 60 * 1000 }
          (cleanupCompletionCache now st.cache))) =
      some { outcome := .ok c, expiresAt := now + 5 * 60 * 1000 } := by
    apply lookupKey_cleanupCompletionCache_live
    · exact lookupKey_setKey sessionId _ _
    · simpa using Nat.not_le.mpr httl
  refine ⟨by simp [hpost1], by simp [hpost1], ?_, ?_⟩
  · rw [hpost1]
    simp [pollRoutePOST, hlook2, respondWithCompletionPromise]
  · rw [hpost1]
    simp [pollRoutePOST, hlook2, respondWithCompletionPromise]

/-- Witness for C2: a concrete completing poll at time 0 followed by a
second poll of the same session at time 1000 returns the same complete
payload without a second side-effect execution. -/
theorem pollIdempotentAfterCompletion_witness :
    (pollRoutePOST true "s1" 0 { cache := [], flows := [("s1", flow0)] }
        (.resolved (some authRes0)) (.ok completion0)).1 =
      .complete completion0 ∧
    (pollRoutePOST true "s1" 0 { cache := [], flows := [("s1", flow0)] }
        (.resolved (some authRes0)) (.ok completion0)).2.2 = 1 ∧
    (pollRoutePOST true "s1" 1000
        (pollRoutePOST true "s1" 0 { cache := [], flows := [("s1", flow0)] }
          (.resolved (some authRes0)) (.ok completion0)).2.1
        .notDone (.error "unused")).1 = .complete completion0 ∧
    (pollRoutePOST true "s1" 1000
        (pollRoutePOST true "s1" 0 { cache := [], flows := [("s1", flow0)] }
          (.resolved (some authRes0)) (.ok completion0)).2.1
        .notDone (.error "unused")).2.2 = 0 :=
  pollIdempotentAfterCompletion "s1" 0 1000
    { cache := [], flows := [("s1", flow0)] } authRes0 flow0 completion0
    .notDone (.error "unused") rfl rfl (by decide) (by decide)

/-- Counterexample for claim C3: two concurrent polls of a session whose
completion promise is already resolved can both pass the completion-cache
check before either stores the completion entry (schedule: both handlers
run their first segment, then each resumes after the race); each then
starts its own execution of `completeDeviceCodeAuthentication`, so the
side effect runs twice — not exactly once — even though both callers end
up with the completion response. -/
theorem concurrentPollsDoubleEffectCex :
    (runTwoPolls "s1" 0 (.resolved (some authRes0)) (.ok completion0)
        { h1 := .start, h2 := .start,
          st := { cache := [], flows := [("s1", flow0)] }, effects := 0 }
        [true, false, true, false]).effects = 2 ∧
    (runTwoPolls "s1" 0 (.resolved (some authRes0)) (.ok completion0)
        { h1 := .start, h2 := .start,
          st := { cache := [], flows := [("s1", flow0)] }, effects := 0 }
        [true, false, true, false]).h1 =
      .finished (.complete completion0) ∧
    (runTwoPolls "s1" 0 (.resolved (some authRes0)) (.ok completion0)
        { h1 := .start, h2 := .start,
          st := { cache := [], flows := [("s1", flow0)] }, effects := 0 }
        [true, false, true, false]).h2 =
      .finished (.complete completion0) := by
  refine ⟨?_, ?_, ?_⟩ <;> rfl

theorem runPollsSerial_cached (sessionId : String) (race : RaceOutcome)
    (effect : Except String CompletionResult) (entry : CompletionEntry)
    (c : CompletionResult) (hout : entry.outcome = .ok c) :
    ∀ (ts : List Nat) (st : PollServerState),
      lookupKey sessionId st.cache = some entry →
      (∀ t ∈ ts, t < entry.expiresAt) →
      (runPollsSerial true sessionId race effect st ts).1 =
        ts.map (fun _ => PollApiResponse.complete c) ∧
      (runPollsSerial true sessionId race effect st ts).2.2 = 0 := by
  intro ts
  induction ts with
  | nil =>
    intro st hc ht
    simp [runPollsSerial]
  | cons t ts2 ih =>
    intro st hc ht
    have htlt : t < entry.expiresAt := ht t (List.mem_cons_self _ _)
    have hle : ¬ entry.expiresAt ≤ t := by omega
    have hlook := lookupKey_cleanupCompletionCache_live t sessionId entry
      st.cache hc hle
    have hpost : pollRoutePOST true sessionId t st race effect =
        (.complete c,
         { cache := cleanupCompletionCache t st.cache, flows := st.flows },
         0) := by
      simp [pollRoutePOST, hlook, respondWithCompletionPromise, hout]
    have hrest := ih { cache := cleanupCompletionCache t st.cache,
                       flows := st.flows }
      hlook (fun x hx => ht x (List.mem_cons_of_mem _ hx))
    simp [runPollsSerial, hpost, hrest.1, hrest.2]

/-- Claim C3, amended: when the poll calls are serialized — each request
finishing before the next begins — a session that completes produces
exactly one execution of the completion side effect, and every caller
receives the identical completion payload; truly concurrent polls that
each pass the completion-cache check before any of them stores the entry
each start their own execution (the counterexample runs it twice). -/
theorem serializedPollsSingleEffect (sessionId : String) (now : Nat)
    (ts : List Nat) (st : PollServerState) (r : AuthResult)
    (c : CompletionResult) (flow : ActiveFlow)
    (hcache : lookupKey sessionId (cleanupCompletionCache now st.cache) = none)
    (hflow : lookupKey sessionId st.flows = some flow)
    (hlive : ¬ flow.expiresAt < now)
    (hts : ∀ t ∈ ts, t < now + 5 * 60 * 1000) :
    (runPollsSerial true sessionId (.resolved (some r)) (.ok c) st
        (now :: ts)).1 =
      (now :: ts).map (fun _ => PollApiResponse.complete c) ∧
    (runPollsSerial true sessionId (.resolved (some r)) (.ok c) st
        (now :: ts)).2.2 = 1 := by
  have hpoll : pollDeviceCodeFlow sessionId now st.flows (.resolved (some r)) =
      ({ status := .complete,
         result := some { accessToken := r.accessToken,
                          expiresAt := r.expiresOn.getD (now + 3600000),
                          scopes := r.scopes,
                          account := r.account } },
        eraseKey sessionId st.flows) := by
    simp [pollDeviceCodeFlow, hflow, hlive]
  have hpost1 : pollRoutePOST true sessionId now st (.resolved (some r))
      (.ok c) =
      (.complete c,
       { cache := setKey sessionId
           { outcome := .ok c, expiresAt := now + 5 * 60 * 1000 }
           (cleanupCompletionCache now st.cache),
         flows := eraseKey sessionId st.flows }, 1) := by
    simp [pollRoutePOST, hcache, hpoll, respondWithCompletionPromise]
  have hrest := runPollsSerial_cached sessionId (.resolved (some r)) (.ok c)
    { outcome := .ok c, expiresAt := now + 5 * 60 * 1000 } c rfl ts
    { cache := setKey sessionId
        { outcome := .ok c, expiresAt := now + 5 * 60 * 1000 }
        (cleanupCompletionCache now st.cache),
      flows := eraseKey sessionId st.flows }
    (lookupKey_setKey sessionId _ _) hts
  constructor
  · simp [runPollsSerial, hpost1, hrest.1]
  · simp [runPollsSerial, hpost1, hrest.2]

/-- Witness for the amended C3: three serialized polls at times 0, 1000
and 5000 all return the identical complete payload and run the side effect
exactly once. -/
theorem serializedPollsSingleEffect_witness :
    (runPollsSerial true "s1" (.resolved (some authRes0)) (.ok completion0)
        { cache := [], flows := [("s1", flow0)] } [0, 1000, 5000]).1 =
      [.complete completion0, .complete completion0, .complete completion0] ∧
    (runPollsSerial true "s1" (.resolved (some authRes0)) (.ok completion0)
        { cache := [], flows := [("s1", flow0)] } [0, 1000, 5000]).2.2 = 1 := by
  have h := serializedPollsSingleEffect "s1" 0 [1000, 5000]
    { cache := [], flows := [("s1", flow0)] } authRes0 completion0 flow0
    rfl rfl (by decide) (by decide)
  exact ⟨by simpa using h.1, h.2⟩
